import Mathlib

/-!
Verification of the CellWay route-optimization backend.

This file gives a shallow embedding, in Lean 4, of the core routing code of
the repository (backend/services/routing_service.py and backend/services.py)
and proves properties of it.  Python floats are modelled by rational numbers;
network and file I/O is modelled by passing the outcome of each external call
as an explicit argument; Python dictionaries that are consumed through
string-keyed lookups are modelled by association lists over a small value
type.  Geometric distance computations (the haversine formula) use
transcendental functions; every function that consumes such a distance takes
it as an explicit rational argument, so each theorem quantifies over all
possible distances.
-/

namespace CellWay

/-! ### Basic data -/

/-- A cell-tower record as consumed by the route selection engine
(backend/services/routing_service.py).  Only the averageSignal field is read
by the selection code (line 532); position fields are kept for the record
shape. -/
structure ScTower where
  lat : ℚ
  lon : ℚ
  range : ℚ
  averageSignal : ℚ
deriving DecidableEq, Repr

/-- A parsed route dictionary, as produced by the GraphHopper / OSRM parsers
of routing_service.py.  Coordinates are (lng, lat) pairs as in the GeoJSON
geometry; duration is in seconds, distance in meters.  The towers field
models the key attached by mutation at routing_service.py lines 473-478.
Turn-by-turn legs are carried opaquely as a step count, since no claim reads
them. -/
structure Route where
  coords : List (ℚ × ℚ)
  distance : ℚ
  duration : ℚ
  routing_provider : String
  stepCount : Nat
  towers : List ScTower
deriving DecidableEq, Repr

/-- A waypoint entry of the response dictionaries. -/
structure Waypoint where
  name : String
  location : ℚ × ℚ
deriving DecidableEq, Repr

/-- Values stored in the Python dictionaries that the routing service
returns.  The slot constructor models the two-key dictionaries
(route plus towers) built at routing_service.py lines 629-631; route none
models a None route value. -/
inductive PyVal where
  | str : String → PyVal
  | routesV : List Route → PyVal
  | waypointsV : List Waypoint → PyVal
  | slot : Option Route → List ScTower → PyVal
deriving DecidableEq, Repr

/-- A Python dictionary with string keys, as an association list (all the
dictionaries built by the routing service are literals with distinct keys). -/
abbrev PyDict := List (String × PyVal)

/-- Dictionary lookup, modelling the Python method dict.get(key) (None when
the key is absent). -/
def dictGet (d : PyDict) (k : String) : Option PyVal :=
  (d.find? (fun p => decide (p.1 = k))).map (·.2)

/-- Dictionary update, modelling a Python assignment d[key] = value. -/
def dictSet (d : PyDict) (k : String) (v : PyVal) : PyDict :=
  if (d.find? (fun p => decide (p.1 = k))).isSome then
    d.map (fun p => if p.1 = k then (k, v) else p)
  else d ++ [(k, v)]

/-- Python truthiness of an optional dictionary value: None, the empty
string, and empty lists are falsy (used by the check at
routing_service.py line 483). -/
def pyFalsy : Option PyVal → Bool
  | none => true
  | some (.str s) => s = ""
  | some (.routesV l) => l.isEmpty
  | some (.waypointsV l) => l.isEmpty
  | some (.slot _ _) => false

/-! ### Route scoring and selection engine

Embedding of the function _select_optimized_routes
(routing_service.py lines 499-632).  The geometric association of towers to a
route, find_towers_along_route, delegates to
utils.geometry.find_towers_near_route_shapely, a module that is not part of
the sources; it is therefore abstracted as the explicit function argument
fta below (every theorem quantifies over it). -/

/-- Type of the abstracted find_towers_along_route: route coordinates and the
towers in the area give the towers along the route (at the fixed proximity
TOWER_PROXIMITY_METERS = 2500 of routing_service.py line 24). -/
abbrev FTA := List (ℚ × ℚ) → List ScTower → List ScTower

/-- One entry of the routes_with_scores list built at
routing_service.py lines 524-549; the three normalized fields are filled by a
second pass (lines 567-576), modelling the in-place dictionary update. -/
structure ScoredEntry where
  route : Route
  towers : List ScTower
  tower_count : Nat
  avg_signal : ℚ
  duration : ℚ
  index : Nat
  norm_duration : ℚ := 0
  norm_signal : ℚ := 0
  balanced_score : ℚ := 0
deriving DecidableEq, Repr

/-- Embedding of the scoring loop of _select_optimized_routes
(lines 524-549): each route is annotated with the towers along it, the tower
count, the average signal (default -120 dBm when no tower is found) and its
enumeration index. -/
def routesWithScores (fta : FTA) (towers_in_area : List ScTower) :
    List Route → Nat → List ScoredEntry
  | [], _ => []
  | route :: rest, index =>
    let towers_along_route := fta route.coords towers_in_area
    let tower_count := towers_along_route.length
    let avg_signal_strength : ℚ :=
      if tower_count > 0 then
        ((towers_along_route.map (·.averageSignal)).sum) / (tower_count : ℚ)
      else -120
    { route := route
      towers := towers_along_route
      tower_count := tower_count
      avg_signal := avg_signal_strength
      duration := route.duration
      index := index } :: routesWithScores fta towers_in_area rest (index + 1)

/-- Minimum of a list of rationals (the Python builtin min over a non-empty
sequence; 0 for the empty list, which the source never passes). -/
def listMinQ : List ℚ → ℚ
  | [] => 0
  | x :: xs => xs.foldl min x

/-- Maximum of a list of rationals (the Python builtin max over a non-empty
sequence; 0 for the empty list, which the source never passes). -/
def listMaxQ : List ℚ → ℚ
  | [] => 0
  | x :: xs => xs.foldl max x

/-- Embedding of the normalization pass of _select_optimized_routes
(lines 558-576): duration and signal are normalized to the 0-1 scale over
the candidate set, with both ranges floored at 1, and the balanced score is
the even-weight combination. -/
def normalizeEntry (min_duration max_duration min_signal max_signal : ℚ)
    (e : ScoredEntry) : ScoredEntry :=
  let duration_range := max 1 (max_duration - min_duration)
  let signal_range := max 1 (max_signal - min_signal)
  let nd : ℚ := 1 - max 0 (min 1 ((e.duration - min_duration) / duration_range))
  let ns : ℚ := max 0 (min 1 ((e.avg_signal - min_signal) / signal_range))
  { e with
    norm_duration := nd
    norm_signal := ns
    balanced_score := nd * (1/2) + ns * (1/2) }

/-- The scored and normalized candidate list (routes_with_scores after
lines 558-576). -/
def scoreAndNormalize (fta : FTA) (alternative_routes : List Route)
    (towers_in_area : List ScTower) : List ScoredEntry :=
  let rws := routesWithScores fta towers_in_area alternative_routes 0
  let min_duration := listMinQ (rws.map (·.duration))
  let max_duration := listMaxQ (rws.map (·.duration))
  let min_signal := listMinQ (rws.map (·.avg_signal))
  let max_signal := listMaxQ (rws.map (·.avg_signal))
  rws.map (normalizeEntry min_duration max_duration min_signal max_signal)

/-- Sort relation for the fastest criterion: ascending duration
(line 579; Python sorted is a stable sort, matched by insertionSort). -/
def durLE (a b : ScoredEntry) : Prop := a.duration ≤ b.duration

instance : DecidableRel durLE := fun a b =>
  inferInstanceAs (Decidable (a.duration ≤ b.duration))

instance : IsTotal ScoredEntry durLE := ⟨fun a b => le_total a.duration b.duration⟩

instance : IsTrans ScoredEntry durLE := ⟨fun _ _ _ h h2 => le_trans h h2⟩

/-- Sort relation for the cell-coverage criterion: the Python key
(-avg_signal, -tower_count) compared lexicographically (lines 582-584),
i.e. descending signal with descending tower count as tie break. -/
def sigLE (a b : ScoredEntry) : Prop :=
  b.avg_signal < a.avg_signal ∨
    (a.avg_signal = b.avg_signal ∧ b.tower_count ≤ a.tower_count)

instance : DecidableRel sigLE := fun a b =>
  inferInstanceAs (Decidable (_ ∨ _))

instance : IsTotal ScoredEntry sigLE := by
  constructor
  intro a b
  rcases lt_trichotomy a.avg_signal b.avg_signal with h | h | h
  · exact Or.inr (Or.inl h)
  · rcases le_total b.tower_count a.tower_count with hc | hc
    · exact Or.inl (Or.inr ⟨h, hc⟩)
    · exact Or.inr (Or.inr ⟨h.symm, hc⟩)
  · exact Or.inl (Or.inl h)

instance : IsTrans ScoredEntry sigLE := by
  constructor
  rintro a b c (h1 | ⟨h1, h1c⟩) (h2 | ⟨h2, h2c⟩)
  · exact Or.inl (lt_trans h2 h1)
  · exact Or.inl (h2 ▸ h1)
  · exact Or.inl (h1 ▸ h2)
  · exact Or.inr ⟨h1.trans h2, le_trans h2c h1c⟩

/-- Sort relation for the balanced criterion: descending balanced score
(lines 587-589). -/
def balLE (a b : ScoredEntry) : Prop := b.balanced_score ≤ a.balanced_score

instance : DecidableRel balLE := fun a b =>
  inferInstanceAs (Decidable (b.balanced_score ≤ a.balanced_score))

instance : IsTotal ScoredEntry balLE := ⟨fun a b => le_total b.balanced_score a.balanced_score⟩

instance : IsTrans ScoredEntry balLE := ⟨fun _ _ _ h h2 => le_trans h2 h⟩

/-- Diversity-aware pick (lines 601-619 of routing_service.py, identical
shape for the cell-coverage and balanced picks): take the best candidate of
the criterion; if its index is already selected, substitute the first
candidate in criterion order whose index is not selected; keep the duplicate
when no such candidate exists. -/
def pickDiverse : List ScoredEntry → List Nat → Option ScoredEntry
  | [], _ => none
  | c0 :: tl, sel =>
    if c0.index ∈ sel then
      match tl.find? (fun e => decide (e.index ∉ sel)) with
      | some alt => some alt
      | none => some c0
    else some c0

/-- The final_route_selection triple of _select_optimized_routes
(lines 578-619): fastest pick, then cell-coverage pick, then balanced pick,
with the diversity substitution. -/
def selectionTriple (fta : FTA) (alternative_routes : List Route)
    (towers_in_area : List ScTower) :
    Option ScoredEntry × Option ScoredEntry × Option ScoredEntry :=
  let rws := scoreAndNormalize fta alternative_routes towers_in_area
  let routes_sorted_by_duration := List.insertionSort durLE rws
  let routes_sorted_by_signal := List.insertionSort sigLE rws
  let routes_sorted_by_balanced := List.insertionSort balLE rws
  let fastest := routes_sorted_by_duration.head?
  let sel1 : List Nat := match fastest with
    | some f => [f.index]
    | none => []
  let cell := pickDiverse routes_sorted_by_signal sel1
  let sel2 : List Nat := sel1 ++ (match cell with
    | some c => [c.index]
    | none => [])
  let balanced := pickDiverse routes_sorted_by_balanced sel2
  (fastest, cell, balanced)

/-- The slot dictionary built for one optimization type at lines 629-631:
the route and towers of the selected entry, or a None route with empty
towers. -/
def slotVal : Option ScoredEntry → PyVal
  | some e => .slot (some e.route) e.towers
  | none => .slot none []

/-- Embedding of _select_optimized_routes (lines 499-632).  On an empty
candidate list it returns the default dictionary of lines 516-522; otherwise
it scores, normalizes, selects with diversity, and builds the three-key
output dictionary of lines 628-632. -/
def selectOptimizedRoutes (fta : FTA) (alternative_routes : List Route)
    (towers_in_area : List ScTower) : PyDict :=
  if alternative_routes.isEmpty then
    [("fastest", .slot none []), ("cell_coverage", .slot none []),
     ("balanced", .slot none [])]
  else
    let t := selectionTriple fta alternative_routes towers_in_area
    [("fastest", slotVal t.1), ("cell_coverage", slotVal t.2.1),
     ("balanced", slotVal t.2.2)]

/-! ### Route alternative provider

Embedding of _calculate_graphhopper_routes (routing_service.py
lines 176-293), _calculate_osrm_route (lines 296-368) and
_calculate_route_with_fallback (lines 371-422).  The outcome of each HTTP
call is an explicit argument; the great-circle distance between the
endpoints, computed by _haversine_distance with trigonometric functions, is
the explicit argument dist_km. -/

/-- One path object of a GraphHopper response, as consumed by
_parse_graphhopper_path (lines 49-117).  hasPoints records whether the
points.coordinates entry is present (its absence makes the parser return
None); time_ms is the time field in milliseconds; instructionCount stands
for the instruction list, whose parsing only populates the legs. -/
structure GHPath where
  hasPoints : Bool
  coordinates : List (ℚ × ℚ)
  distance : ℚ
  time_ms : ℚ
  weight : ℚ
  instructionCount : Nat
deriving DecidableEq, Repr

/-- Embedding of _parse_graphhopper_path: fails exactly when the coordinates
are missing; durations are converted from milliseconds to seconds. -/
def parseGraphhopperPath (p : GHPath) : Option Route :=
  if p.hasPoints then
    some { coords := p.coordinates
           distance := p.distance
           duration := p.time_ms / 1000
           routing_provider := "graphhopper"
           stepCount := p.instructionCount
           towers := [] }
  else none

/-- Outcome of the GraphHopper HTTP request (requests.get at line 229):
either an exception or a decoded JSON body carrying the paths list, the
top-level message, and the snapped waypoints when present.  In the
requestError case, response is the HTTP status of the response object
attached to the exception (some st), or none when the exception carries no
response (connection-level failures); raise_for_status only raises for
statuses of 400 and above, so realizable requestError outcomes have
response = some st with 400 <= st, or response = none.  respMessage is the
message field of the response body, read by the 400 branch of the
handler. -/
inductive GHOutcome where
  | timeout
  | requestError (response : Option Nat) (respMessage : String)
  | otherError
  | response (paths : List GHPath) (message : String)
      (snapped : Option (List (ℚ × ℚ)))
deriving DecidableEq, Repr

/-- Whether the first character list starts the second. -/
def charStartTest : List Char → List Char → Bool
  | [], _ => true
  | _ :: _, [] => false
  | c :: cs, d :: ds => c == d && charStartTest cs ds

/-- Whether the first character list occurs contiguously in the second. -/
def charInfixTest (needle : List Char) : List Char → Bool
  | [] => charStartTest needle []
  | d :: ds => charStartTest needle (d :: ds) || charInfixTest needle ds

/-- Substring test, modelling the Python operator sub in s. -/
def containsSub (s sub : String) : Bool :=
  charInfixTest sub.toList s.toList

/-- Embedding of the requests.RequestException handler (lines 276-289).
Line 277 reads the status through the truthiness of the exception response:
a requests Response is truthy exactly when its ok flag holds, i.e. its
status is below 400, so status_code is some st only for st below 400 and is
None both for connection-level failures and for every HTTPError raised by
raise_for_status (whose response status is 400 or above).  With status_code
None, the comparisons at lines 279-283 are False and the comparison
None >= 500 at line 285 raises a TypeError that no clause of the
surrounding try statement catches; the crash is modelled as none.  The
message branches for 401, 400, 429 and 500+ are consequently dead code, but
are kept as the source writes them. -/
def ghRequestErrorHandler (response : Option Nat) (respMessage : String) :
    Option PyDict :=
  let status_code : Option Nat :=
    match response with
    | some st => if st < 400 then some st else none
    | none => none
  match status_code with
  | none => none
  | some st =>
    let error_message :=
      if st = 401 then "Routing service authentication failed (Invalid API Key?)."
      else if st = 400 then "Invalid request to routing service: " ++ respMessage
      else if st = 429 then "Routing service rate limit exceeded. Please try again later."
      else if st ≥ 500 then
        "Routing service is currently unavailable or encountered an internal error."
      else "Routing service request failed"
    some [("code", .str "Error"), ("message", .str error_message)]

/-- Embedding of _calculate_graphhopper_routes (lines 176-293).  hasKey is
the configuration predicate Config.GRAPHHOPPER_KEY (line 201); outcome is
the result of the HTTP call.  The long-route check at lines 206-208 only
logs, so dist_km does not influence the result here.  The value none models
an exception escaping the function: this happens exactly when the
RequestException handler crashes (see ghRequestErrorHandler). -/
def calculateGraphhopperRoutes (hasKey : Bool)
    (start_lat start_lng end_lat end_lng : ℚ) (outcome : GHOutcome) :
    Option PyDict :=
  if ¬ hasKey then
    some [("code", .str "Error"),
      ("message", .str "Routing service configuration error: API key missing.")]
  else
    match outcome with
    | .timeout =>
      some [("code", .str "Timeout"),
        ("message", .str "Routing service request timed out.")]
    | .requestError response respMessage =>
      ghRequestErrorHandler response respMessage
    | .otherError =>
      some [("code", .str "Error"),
        ("message", .str "An unexpected error occurred during route calculation.")]
    | .response paths message snapped =>
      if paths.isEmpty then
        if containsSub message "Cannot find point" then
          some [("code", .str "PointNotFound"),
            ("message", .str ("Could not find a valid road near the specified start or end point. "
              ++ message))]
        else if containsSub message "Connection between locations not found" then
          some [("code", .str "NoRoute"),
            ("message", .str "No route found between the specified start and end points.")]
        else
          some [("code", .str "NoRoute"), ("message", .str "No route found.")]
      else
        let parsed_routes := paths.filterMap parseGraphhopperPath
        if parsed_routes.isEmpty then
          some [("code", .str "Error"),
            ("message", .str "Failed to process route data received from routing service.")]
        else
          let snappedList := snapped.getD [(start_lng, start_lat)]
          let origin_coords := snappedList.head?.getD (start_lng, start_lat)
          let destination_coords := snappedList.getLast?.getD (end_lng, end_lat)
          some [("code", .str "Ok"), ("routes", .routesV parsed_routes),
            ("waypoints", .waypointsV
              [{ name := "Origin", location := origin_coords },
               { name := "Destination", location := destination_coords }])]

/-- The code entry of an optional result dictionary: none when the call
raised an exception or the dictionary has no code key. -/
def resultCode (r : Option PyDict) : Option PyVal :=
  match r with
  | none => none
  | some d => dictGet d "code"

/-- One route object of an OSRM response as consumed by _parse_osrm_route
(lines 120-173); hasGeometryAndLegs records the presence of the required
geometry and legs entries, hasCoordinates the presence of
geometry.coordinates. -/
structure OsrmRouteData where
  hasGeometryAndLegs : Bool
  hasCoordinates : Bool
  coordinates : List (ℚ × ℚ)
  distance : ℚ
  duration : ℚ
  stepCount : Nat
deriving DecidableEq, Repr

/-- Embedding of _parse_osrm_route: fails when geometry, legs or the
coordinates are missing. -/
def parseOsrmRoute (r : OsrmRouteData) : Option Route :=
  if r.hasGeometryAndLegs then
    if r.hasCoordinates then
      some { coords := r.coordinates
             distance := r.distance
             duration := r.duration
             routing_provider := "osrm"
             stepCount := r.stepCount
             towers := [] }
    else none
  else none

/-- Outcome of the OSRM HTTP request (requests.get at line 329). -/
inductive OsrmOutcome where
  | timeout
  | requestError
  | otherError
  | response (code : String) (message : String) (routes : List OsrmRouteData)
      (waypoints : List Waypoint)
deriving DecidableEq, Repr

/-- Embedding of _calculate_osrm_route (lines 296-368). -/
def calculateOsrmRoute (outcome : OsrmOutcome) : PyDict :=
  match outcome with
  | .timeout =>
    [("code", .str "Error"),
     ("message", .str "Fallback routing service request timed out.")]
  | .requestError =>
    [("code", .str "Error"),
     ("message", .str "Fallback routing service request failed.")]
  | .otherError =>
    [("code", .str "Error"),
     ("message", .str "An unexpected error occurred during fallback route calculation.")]
  | .response code message routes waypoints =>
    if code ≠ "Ok" ∨ routes.isEmpty then
      [("code", .str "NoRoute"), ("message", .str message)]
    else
      let parsed_routes := routes.filterMap parseOsrmRoute
      if parsed_routes.isEmpty then
        [("code", .str "Error"),
         ("message", .str "Failed to process route data from fallback routing service.")]
      else
        [("code", .str "Ok"), ("routes", .routesV parsed_routes),
         ("waypoints", .waypointsV waypoints)]

/-- Embedding of _calculate_route_with_fallback (lines 371-422): GraphHopper
first; when it fails with Timeout or Error, or the great-circle distance
exceeds LONG_ROUTE_THRESHOLD_KM = 400, OSRM is tried; a failing OSRM result
is discarded in favour of the original GraphHopper error.  The function has
no exception handler, so an exception escaping the GraphHopper call (none)
propagates unchanged. -/
def calculateRouteWithFallback (hasKey : Bool)
    (start_lat start_lng end_lat end_lng dist_km : ℚ)
    (ghOutcome : GHOutcome) (osrmOutcome : OsrmOutcome) : Option PyDict :=
  match calculateGraphhopperRoutes hasKey start_lat start_lng end_lat end_lng
      ghOutcome with
  | none => none
  | some graphhopper_result =>
    if dictGet graphhopper_result "code" = some (.str "Ok") then
      some graphhopper_result
    else
      let failure_code := dictGet graphhopper_result "code"
      let should_try_fallback :=
        failure_code = some (.str "Timeout") ∨ failure_code = some (.str "Error") ∨
          dist_km > 400
      if should_try_fallback then
        let osrm_result := calculateOsrmRoute osrmOutcome
        if dictGet osrm_result "code" = some (.str "Ok") then some osrm_result
        else some graphhopper_result
      else some graphhopper_result

/-- Whether the control flow of _calculate_route_with_fallback reaches the
OSRM call at line 413: the GraphHopper call returned (rather than raised),
its result is not Ok (line 394 returned early otherwise) and
should_try_fallback holds (lines 402-409). -/
def osrmAttempted (hasKey : Bool)
    (start_lat start_lng end_lat end_lng dist_km : ℚ)
    (ghOutcome : GHOutcome) : Bool :=
  match calculateGraphhopperRoutes hasKey start_lat start_lng end_lat end_lng
      ghOutcome with
  | none => false
  | some graphhopper_result =>
    let failure_code := dictGet graphhopper_result "code"
    decide (¬ failure_code = some (.str "Ok") ∧
      (failure_code = some (.str "Timeout") ∨ failure_code = some (.str "Error") ∨
        dist_km > 400))

/-! ### The optimized-route orchestration

Embedding of _get_optimized_route (routing_service.py lines 426-496) and the
public wrappers (lines 636-687). -/

/-- A bounding box in degrees. -/
structure BBox where
  min_lat : ℚ
  min_lng : ℚ
  max_lat : ℚ
  max_lng : ℚ
deriving DecidableEq, Repr

/-- Modelled from the spec: the function _calculate_bounds_from_routes is
called at routing_service.py line 469 but is defined nowhere in the
repository (a NameError at runtime); following the spec (a bounding box
scoping the tower query to the area of the candidate routes), it is modelled
as the bounding box of all route coordinates.  None of the theorems below
depends on its value. -/
def boundsFromRoutes (routes : List Route) : BBox :=
  let lats := (routes.map (fun r => r.coords.map (·.2))).flatten
  let lngs := (routes.map (fun r => r.coords.map (·.1))).flatten
  { min_lat := listMinQ lats, min_lng := listMinQ lngs
    max_lat := listMaxQ lats, max_lng := listMaxQ lngs }

/-- Embedding of _get_optimized_route (lines 426-496).  fetchTowers stands
for get_cell_towers (tower data I/O); fta for find_towers_along_route.  The
route dictionaries are annotated with their towers (lines 473-478, with the
lng-lat coordinates swapped to lat-lng as at line 475) and the selection
result of line 481 is then checked, at line 483, for the keys code and
routes, which _select_optimized_routes never produces. -/
def getOptimizedRoute (fta : FTA) (fetchTowers : BBox → List ScTower)
    (hasKey : Bool) (start_lat start_lng end_lat end_lng dist_km : ℚ)
    (ghOutcome : GHOutcome) (osrmOutcome : OsrmOutcome)
    (optimization_type : String) : Option PyDict :=
  match calculateRouteWithFallback hasKey start_lat start_lng end_lat end_lng
      dist_km ghOutcome osrmOutcome with
  | none => none
  | some route_alternatives_response =>
    if ¬ dictGet route_alternatives_response "code" = some (.str "Ok") then
      some route_alternatives_response
    else
    let alternative_routes :=
      match dictGet route_alternatives_response "routes" with
      | some (.routesV rs) => rs
      | _ => []
    let routing_provider :=
      match alternative_routes with
      | [] => "graphhopper"
      | r :: _ => if r.routing_provider ≠ "" then r.routing_provider else "graphhopper"
    -- line 466: first selection call, with an empty tower list; discarded
    let _result0 := selectOptimizedRoutes fta alternative_routes []
    let bounds := boundsFromRoutes alternative_routes
    let towers_in_area := fetchTowers bounds
    let annotated := alternative_routes.map (fun r =>
      { r with towers := fta (r.coords.map (fun c => (c.2, c.1))) towers_in_area })
    let result := selectOptimizedRoutes fta annotated towers_in_area
    if ¬ dictGet result "code" = some (.str "Ok") ∨ pyFalsy (dictGet result "routes") then
      some [("code", .str "Error"), ("message", .str "Failed to optimize route.")]
    else
      some (dictSet (dictSet (dictSet result "routing_provider" (.str routing_provider))
        "optimization_type" (.str optimization_type))
        "tower_data_source" (.str "OpenCellId"))

/-- Embedding of the public function get_route_fastest (lines 636-651). -/
def getRouteFastest (fta : FTA) (fetchTowers : BBox → List ScTower)
    (hasKey : Bool) (start_lat start_lng end_lat end_lng dist_km : ℚ)
    (ghOutcome : GHOutcome) (osrmOutcome : OsrmOutcome) : Option PyDict :=
  getOptimizedRoute fta fetchTowers hasKey start_lat start_lng end_lat end_lng
    dist_km ghOutcome osrmOutcome "fastest"

/-! ### Cell coverage model

Embedding of calculate_signal_strength (backend/services.py lines 146-190).
The function reads each tower only through its haversine distance to the
query point and its range and averageSignal attributes; the distance, which
the Python code computes from coordinates with trigonometric functions, is
carried as an explicit rational field, so the theorems quantify over all
possible point-to-tower distances. -/

/-- One tower as seen from a fixed query point: dist is the haversine
distance in meters from the point to the tower, range the nominal range in
meters, averageSignal in dBm. -/
structure SigTower where
  dist : ℚ
  range : ℚ
  averageSignal : ℚ
deriving DecidableEq, Repr

/-- Effective tower range: the range attribute when positive, else the
default 5000 m (services.py line 173). -/
def effRange (t : SigTower) : ℚ := if t.range > 0 then t.range else 5000

/-- Effective tower signal: averageSignal when nonzero, else the default
-70 dBm (services.py line 180). -/
def effSignal (t : SigTower) : ℚ := if t.averageSignal ≠ 0 then t.averageSignal else -70

/-- Inverse-square weight of a tower, with the distance clamped below at
100 m (services.py lines 178-179). -/
def towerWeight (t : SigTower) : ℚ := 1 / (max 100 t.dist) ^ 2

/-- Whether a tower is within its effective range of the point
(services.py line 176). -/
def towerInRange (t : SigTower) : Bool := decide (t.dist ≤ effRange t)

/-- Embedding of calculate_signal_strength (services.py lines 146-190): 0
for an empty tower list (line 149); otherwise the loop accumulates, over the
towers within range, the weighted signal sum and the weight sum, and returns
-100 when the weight sum is zero, else the weighted average. -/
def calculate_signal_strength (towers : List SigTower) : ℚ :=
  if towers.isEmpty then 0
  else
    let acc := towers.foldl
      (fun (acc : ℚ × ℚ) t =>
        if t.dist ≤ effRange t then
          (acc.1 + effSignal t * towerWeight t, acc.2 + towerWeight t)
        else acc)
      (0, 0)
    if acc.2 = 0 then -100 else acc.1 / acc.2

/-- Weighted signal sum of the in-range towers of a list (specification-side
reformulation of the accumulation loop). -/
def wSignalSum (towers : List SigTower) : ℚ :=
  ((towers.filter towerInRange).map (fun t => effSignal t * towerWeight t)).sum

/-- Weight sum of the in-range towers of a list. -/
def wWeightSum (towers : List SigTower) : ℚ :=
  ((towers.filter towerInRange).map towerWeight).sum

/-! ### Road network cache: bounding-box narrowing

Embedding of the area-reduction head of get_road_network
(backend/services.py lines 193-230): a requested box whose area exceeds the
threshold of 0.1 square degrees is replaced by a narrowed corridor box and
the function recurses; only a box at or below the threshold reaches the
cache lookup and the network fetch (the graph_from_bbox calls at
lines 268-288, and the retry recursion of lines 316-338, which re-enters
through the same head). -/

/-- Area of a bounding box in square degrees (services.py line 200). -/
def areaSize (b : BBox) : ℚ := (b.max_lat - b.min_lat) * (b.max_lng - b.min_lng)

/-- The corridor narrowing of services.py lines 212-227: around the midpoint
of the box, a quarter of the direction vector plus a 0.005-degree buffer in
each direction. -/
def narrowBox (b : BBox) : BBox :=
  let mid_lat := (b.min_lat + b.max_lat) / 2
  let mid_lng := (b.min_lng + b.max_lng) / 2
  let lat_direction := b.max_lat - b.min_lat
  let lng_direction := b.max_lng - b.min_lng
  let small_buffer : ℚ := 5 / 1000
  { min_lat := mid_lat - |lat_direction| / 4 - small_buffer
    max_lat := mid_lat + |lat_direction| / 4 + small_buffer
    min_lng := mid_lng - |lng_direction| / 4 - small_buffer
    max_lng := mid_lng + |lng_direction| / 4 + small_buffer }

/-- The box that get_road_network actually fetches for a requested box: the
narrowing recursion of lines 210-230 until the area is at or below 0.1
square degrees (fuel-bounded; none when the fuel runs out before the
threshold is reached). -/
def resolveFetchBox : Nat → BBox → Option BBox
  | 0, _ => none
  | fuel + 1, b =>
    if areaSize b > 1/10 then resolveFetchBox fuel (narrowBox b)
    else some b

/-! ### Signal-aware pathfinder

Embedding of dijkstra_with_signal (backend/services.py lines 660-864).  The
graph mirrors the NetworkX multigraph interface used by the code: a node
list, a neighbor list per node, and a list of parallel edge records per
ordered node pair.  Node signal strengths, which the Python code precomputes
from the node coordinates and the towers via calculate_signal_strength, are
abstracted as an explicit function argument signalAt (the theorems quantify
over it); the priority queue of heapq is modelled by a list popped at its
lexicographically least element. -/

/-- One edge record: length and speed_kph are optional attributes, read with
defaults (infinity for the min key at line 756, 0 for the distance at
line 761, 50 for the speed at line 764). -/
structure EdgeData where
  length : Option ℚ
  speed_kph : Option ℚ
deriving DecidableEq, Repr

/-- A road network graph in the shape consumed by dijkstra_with_signal. -/
structure RoadGraph where
  nodes : List Nat
  neighborsOf : Nat → List Nat
  edges : Nat → Nat → List EdgeData

/-- The length key of an edge record: the length attribute, or infinity
when missing (line 756). -/
def lengthKey (e : EdgeData) : WithTop ℚ :=
  match e.length with
  | some q => (q : WithTop ℚ)
  | none => ⊤

/-- The Python min over parallel edges with the length key (line 754-757):
first record of least length, missing lengths counting as infinity. -/
def minByLength : List EdgeData → Option EdgeData
  | [] => none
  | e :: es => some (es.foldl (fun b x => if lengthKey x < lengthKey b then x else b) e)

/-- Lexicographic strict order on priority-queue entries, as used by heapq
on (distance, node) tuples.  Distances are WithTop rationals since Python
deals in floats that may be infinite. -/
def pqLt (a b : WithTop ℚ × Nat) : Bool :=
  decide (a.1 < b.1) || (decide (a.1 = b.1) && decide (a.2 < b.2))

/-- The least entry of the priority queue (none when empty). -/
def pqMin : List (WithTop ℚ × Nat) → Option (WithTop ℚ × Nat)
  | [] => none
  | x :: xs => some (xs.foldl (fun b y => if pqLt y b then y else b) x)

/-- Search state of the Dijkstra loop: tentative distances, predecessor map,
visited set and priority queue. -/
structure DijkState where
  dist : Nat → WithTop ℚ
  prev : Nat → Option Nat
  visited : List Nat
  pq : List (WithTop ℚ × Nat)

/-- The relaxation weight of an edge (services.py lines 824-848): the edge
length, blended with the signal factor of the target node when the signal
weight is positive. -/
def relaxationWeight (signal_weight : ℚ) (distance : ℚ) (signal : ℚ) : ℚ :=
  if signal_weight > 0 then
    let normalized_signal := max 0 (min 1 ((signal + 120) / 70))
    let signal_factor := 1 - normalized_signal
    let distance_scale : ℚ := 1000
    (1 - signal_weight) * distance + signal_weight * signal_factor * distance_scale
  else distance

/-- The neighbor relaxation loop of dijkstra_with_signal (lines 809-860):
for each unvisited neighbor, the least parallel edge is taken (a missing
edge record mirrors the exception handler and is skipped), the relaxation
weight computed, and the tentative distance, predecessor and queue updated
when the new distance improves. -/
def relaxNeighbors (g : RoadGraph) (node_signals : Nat → ℚ) (signal_weight : ℚ)
    (current_node : Nat) (visited : List Nat) (st : DijkState) : DijkState :=
  (g.neighborsOf current_node).foldl
    (fun st neighbor =>
      if visited.contains neighbor then st
      else
        match minByLength (g.edges current_node neighbor) with
        | none => st
        | some edge_data =>
          let distance := edge_data.length.getD 0
          let weight := relaxationWeight signal_weight distance (node_signals neighbor)
          let new_distance := st.dist current_node + (weight : WithTop ℚ)
          if new_distance < st.dist neighbor then
            { st with
              dist := fun n => if n = neighbor then new_distance else st.dist n
              prev := fun n => if n = neighbor then some current_node else st.prev n
              pq := st.pq ++ [(new_distance, neighbor)] }
          else st)
    st

/-- The main loop of dijkstra_with_signal (lines 713-864), fuel-bounded:
pop the least queue entry; skip it when already visited; stop with the final
state when the end node is popped; otherwise relax the neighbors.  Returns
none when the queue empties (line 864) or the fuel runs out. -/
def dijkstraLoop (g : RoadGraph) (node_signals : Nat → ℚ) (signal_weight : ℚ)
    (end_node : Nat) : Nat → DijkState → Option DijkState
  | 0, _ => none
  | fuel + 1, st =>
    match pqMin st.pq with
    | none => none
    | some entry =>
      let pq1 := st.pq.erase entry
      let current_node := entry.2
      if st.visited.contains current_node then
        dijkstraLoop g node_signals signal_weight end_node fuel { st with pq := pq1 }
      else
        let visited1 := current_node :: st.visited
        if current_node = end_node then
          some { st with visited := visited1, pq := pq1 }
        else
          let st1 := relaxNeighbors g node_signals signal_weight current_node visited1
            { st with visited := visited1, pq := pq1 }
          dijkstraLoop g node_signals signal_weight end_node fuel st1

/-- Path reconstruction (lines 735-739): walk the predecessor map from the
end node, then reverse.  The Python loop condition treats both None and the
node id 0 as falsy, which is mirrored here. -/
def reconstructPath (prev : Nat → Option Nat) : Option Nat → Nat → List Nat
  | _, 0 => []
  | none, _ => []
  | some 0, _ => []
  | some n, fuel + 1 => n :: reconstructPath prev (prev n) fuel

/-- Route statistics block of dijkstra_with_signal (lines 741-806). -/
structure RouteDetails where
  distance : ℚ
  duration : ℚ
  average_signal : ℚ
  min_signal : ℚ
  signal_variance : ℚ
  low_signal_percentage : ℚ
  signal_samples : Nat
  signal_score : ℚ
deriving DecidableEq, Repr

/-- The per-path statistics loop (lines 742-794): total distance and
duration over the least parallel edges of consecutive path nodes, and the
signal list of the visited target nodes when the signal map was
precomputed. -/
def routeDetails (g : RoadGraph) (node_signals : Option (Nat → ℚ))
    (path : List Nat) : RouteDetails :=
  let step := fun (acc : ℚ × ℚ × List ℚ × Option Nat) (node : Nat) =>
    match acc.2.2.2 with
    | none => (acc.1, acc.2.1, acc.2.2.1, some node)
    | some prev_node =>
      match minByLength (g.edges prev_node node) with
      | none => (acc.1, acc.2.1, acc.2.2.1, some node)
      | some edge_data =>
        let distance := edge_data.length.getD 0
        let speed := edge_data.speed_kph.getD 50
        let duration := (distance / 1000) / (speed / 3600)
        let signals := match node_signals with
          | some f => acc.2.2.1 ++ [f node]
          | none => acc.2.2.1
        (acc.1 + distance, acc.2.1 + duration, signals, some node)
  let res := path.foldl step (0, 0, [], none)
  let total_distance := res.1
  let total_duration := res.2.1
  let route_signals := res.2.2.1
  if route_signals.isEmpty then
    { distance := total_distance, duration := total_duration
      average_signal := -120, min_signal := -120, signal_variance := 0
      low_signal_percentage := 100, signal_samples := 0, signal_score := 0 }
  else
    let n : ℚ := route_signals.length
    let avg_signal := route_signals.sum / n
    let min_signal := listMinQ route_signals
    let signal_variance := (route_signals.map (fun s => (s - avg_signal) ^ 2)).sum / n
    let low_signal_count : ℚ := (route_signals.filter (fun s => decide (s < -100))).length
    let low_signal_pct := low_signal_count / n * 100
    let signal_score := max 0 (min 1 ((avg_signal + 120) / 70))
    { distance := total_distance, duration := total_duration
      average_signal := avg_signal, min_signal := min_signal
      signal_variance := signal_variance, low_signal_percentage := low_signal_pct
      signal_samples := route_signals.length, signal_score := signal_score }

/-- Embedding of dijkstra_with_signal (lines 660-864).  towers and signalAt
stand for the tower list and the precomputed per-node signal strengths
(calculate_signal_strength at the node coordinates); an empty tower list
forces the signal weight to 0 (lines 676-678), and the signal map is
populated only when the effective signal weight is positive (line 696). -/
def dijkstraWithSignal (g : RoadGraph) (start_node end_node : Nat)
    (towers : List SigTower) (signalAt : Nat → ℚ) (signal_weight : ℚ)
    (fuel : Nat) : Option (List Nat × RouteDetails) :=
  let sw := if towers.isEmpty then 0 else signal_weight
  let node_signals : Option (Nat → ℚ) :=
    if sw > 0 ∧ ¬ towers.isEmpty then some signalAt else none
  let st0 : DijkState :=
    { dist := fun n => if n = start_node then (0 : WithTop ℚ) else ⊤
      prev := fun _ => none
      visited := []
      pq := [((0 : WithTop ℚ), start_node)] }
  match dijkstraLoop g (fun n => (node_signals.getD (fun _ => -120)) n) sw end_node
      fuel st0 with
  | none => none
  | some stF =>
    let path := (reconstructPath stF.prev (some end_node) (g.nodes.length + 1)).reverse
    some (path, routeDetails g node_signals path)

/-- Modelled from the spec: the plain shortest-path comparator of the
round-trip property, a search identical in shape to dijkstra_with_signal
but whose relaxation weight of every edge is the edge length alone.  Only
the path is produced. -/
def relaxNeighborsPlain (g : RoadGraph) (current_node : Nat) (visited : List Nat)
    (st : DijkState) : DijkState :=
  (g.neighborsOf current_node).foldl
    (fun st neighbor =>
      if visited.contains neighbor then st
      else
        match minByLength (g.edges current_node neighbor) with
        | none => st
        | some edge_data =>
          let distance := edge_data.length.getD 0
          let new_distance := st.dist current_node + (distance : WithTop ℚ)
          if new_distance < st.dist neighbor then
            { st with
              dist := fun n => if n = neighbor then new_distance else st.dist n
              prev := fun n => if n = neighbor then some current_node else st.prev n
              pq := st.pq ++ [(new_distance, neighbor)] }
          else st)
    st

/-- Modelled from the spec: the main loop of the plain shortest-path
comparator. -/
def dijkstraLoopPlain (g : RoadGraph) (end_node : Nat) :
    Nat → DijkState → Option DijkState
  | 0, _ => none
  | fuel + 1, st =>
    match pqMin st.pq with
    | none => none
    | some entry =>
      let pq1 := st.pq.erase entry
      let current_node := entry.2
      if st.visited.contains current_node then
        dijkstraLoopPlain g end_node fuel { st with pq := pq1 }
      else
        let visited1 := current_node :: st.visited
        if current_node = end_node then
          some { st with visited := visited1, pq := pq1 }
        else
          let st1 := relaxNeighborsPlain g current_node visited1
            { st with visited := visited1, pq := pq1 }
          dijkstraLoopPlain g end_node fuel st1

/-- Modelled from the spec: the plain shortest-path search over edge
lengths, returning the path alone. -/
def dijkstraPlain (g : RoadGraph) (start_node end_node : Nat) (fuel : Nat) :
    Option (List Nat) :=
  let st0 : DijkState :=
    { dist := fun n => if n = start_node then (0 : WithTop ℚ) else ⊤
      prev := fun _ => none
      visited := []
      pq := [((0 : WithTop ℚ), start_node)] }
  match dijkstraLoopPlain g end_node fuel st0 with
  | none => none
  | some stF =>
    some ((reconstructPath stF.prev (some end_node) (g.nodes.length + 1)).reverse)

/-! ### Helper lemmas -/

lemma foldl_min_le_init (l : List ℚ) (a : ℚ) : l.foldl min a ≤ a := by
  induction l generalizing a with
  | nil => exact le_refl a
  | cons x xs ih => exact le_trans (ih (min a x)) (min_le_left a x)

lemma foldl_min_le_mem {l : List ℚ} {x : ℚ} (hx : x ∈ l) (a : ℚ) :
    l.foldl min a ≤ x := by
  induction l generalizing a with
  | nil => cases hx
  | cons y ys ih =>
    rcases List.mem_cons.mp hx with rfl | hmem
    · exact le_trans (foldl_min_le_init ys (min a x)) (min_le_right a x)
    · exact ih hmem (min a y)

lemma init_le_foldl_max (l : List ℚ) (a : ℚ) : a ≤ l.foldl max a := by
  induction l generalizing a with
  | nil => exact le_refl a
  | cons x xs ih => exact le_trans (le_max_left a x) (ih (max a x))

lemma mem_le_foldl_max {l : List ℚ} {x : ℚ} (hx : x ∈ l) (a : ℚ) :
    x ≤ l.foldl max a := by
  induction l generalizing a with
  | nil => cases hx
  | cons y ys ih =>
    rcases List.mem_cons.mp hx with rfl | hmem
    · exact le_trans (le_max_right a x) (init_le_foldl_max ys (max a x))
    · exact ih hmem (max a y)

lemma listMinQ_le {l : List ℚ} {x : ℚ} (hx : x ∈ l) : listMinQ l ≤ x := by
  cases l with
  | nil => cases hx
  | cons y ys =>
    rcases List.mem_cons.mp hx with rfl | hmem
    · exact foldl_min_le_init ys x
    · exact foldl_min_le_mem hmem y

lemma le_listMaxQ {l : List ℚ} {x : ℚ} (hx : x ∈ l) : x ≤ listMaxQ l := by
  cases l with
  | nil => cases hx
  | cons y ys =>
    rcases List.mem_cons.mp hx with rfl | hmem
    · exact init_le_foldl_max ys x
    · exact mem_le_foldl_max hmem y

/-- The output dictionary of the selection engine always has the literal
three-slot shape. -/
lemma selectOptimizedRoutes_shape (fta : FTA) (alts : List Route)
    (tia : List ScTower) :
    ∃ o1 o2 o3 : Option ScoredEntry,
      selectOptimizedRoutes fta alts tia =
        [("fastest", slotVal o1), ("cell_coverage", slotVal o2),
         ("balanced", slotVal o3)] := by
  by_cases h : alts.isEmpty
  · exact ⟨none, none, none, by simp [selectOptimizedRoutes, h, slotVal]⟩
  · refine ⟨(selectionTriple fta alts tia).1, (selectionTriple fta alts tia).2.1,
      (selectionTriple fta alts tia).2.2, ?_⟩
    simp [selectOptimizedRoutes, h]

lemma dictGet_select_code (fta : FTA) (alts : List Route) (tia : List ScTower) :
    dictGet (selectOptimizedRoutes fta alts tia) "code" = none := by
  obtain ⟨o1, o2, o3, h⟩ := selectOptimizedRoutes_shape fta alts tia
  rw [h]
  simp [dictGet]

lemma dictGet_select_routes (fta : FTA) (alts : List Route) (tia : List ScTower) :
    dictGet (selectOptimizedRoutes fta alts tia) "routes" = none := by
  obtain ⟨o1, o2, o3, h⟩ := selectOptimizedRoutes_shape fta alts tia
  rw [h]
  simp [dictGet]

/-! ### Claim C10 -/

/-- C10: for every input, the value returned by the selection engine is a
dictionary with exactly the three keys fastest, cell_coverage and balanced,
each mapping to a two-key route/towers slot; it never contains a code key or
a routes key, and on an empty candidate list every route is None and every
towers list is empty. -/
theorem C10_select_shape (fta : FTA) (alts : List Route) (tia : List ScTower) :
    (∃ r1 t1 r2 t2 r3 t3,
      selectOptimizedRoutes fta alts tia =
        [("fastest", PyVal.slot r1 t1), ("cell_coverage", PyVal.slot r2 t2),
         ("balanced", PyVal.slot r3 t3)]) ∧
    dictGet (selectOptimizedRoutes fta alts tia) "code" = none ∧
    dictGet (selectOptimizedRoutes fta alts tia) "routes" = none ∧
    selectOptimizedRoutes fta [] tia =
      [("fastest", PyVal.slot none []), ("cell_coverage", PyVal.slot none []),
       ("balanced", PyVal.slot none [])] := by
  refine ⟨?_, dictGet_select_code fta alts tia, dictGet_select_routes fta alts tia, rfl⟩
  obtain ⟨o1, o2, o3, h⟩ := selectOptimizedRoutes_shape fta alts tia
  cases o1 <;> cases o2 <;> cases o3 <;>
    exact ⟨_, _, _, _, _, _, h⟩

/-! ### Claim C9 -/

lemma resolveFetchBox_area :
    ∀ (fuel : Nat) (b b' : BBox), resolveFetchBox fuel b = some b' →
      areaSize b' ≤ 1/10 := by
  intro fuel
  induction fuel with
  | zero => intro b b' h; cases h
  | succ n ih =>
    intro b b' h
    by_cases hb : areaSize b > 1/10
    · rw [resolveFetchBox, if_pos hb] at h
      exact ih _ _ h
    · rw [resolveFetchBox, if_neg hb] at h
      cases h
      exact not_lt.mp hb

/-- C9: a requested bounding box whose area exceeds the 0.1-square-degree
threshold is never fetched directly: the box is narrowed first, and any box
that the function resolves to fetch has area at or below the threshold. -/
theorem C9_corridor (fuel : Nat) (b b' : BBox)
    (h : resolveFetchBox fuel b = some b') :
    areaSize b' ≤ 1/10 ∧
    (areaSize b > 1/10 →
      b' ≠ b ∧ ∃ n, fuel = n + 1 ∧
        resolveFetchBox fuel b = resolveFetchBox n (narrowBox b)) := by
  refine ⟨resolveFetchBox_area fuel b b' h, fun hbig => ⟨?_, ?_⟩⟩
  · intro heq
    have := resolveFetchBox_area fuel b b' h
    rw [heq] at this
    exact absurd hbig (not_lt.mpr this)
  · cases fuel with
    | zero => cases h
    | succ n => exact ⟨n, rfl, by rw [resolveFetchBox, if_pos hbig]⟩

/-- Witness for C9 at a one-degree-square box: the box is over the
threshold, and the resolved fetch box is a different, under-threshold box. -/
theorem C9_witness :
    areaSize ⟨0, 0, 1, 1⟩ > 1/10 ∧
    ∃ b', resolveFetchBox 5 ⟨0, 0, 1, 1⟩ = some b' ∧
      areaSize b' ≤ 1/10 ∧ b' ≠ ⟨0, 0, 1, 1⟩ := by
  have h : resolveFetchBox 5 ⟨0, 0, 1, 1⟩ =
      some ⟨147/400, 147/400, 253/400, 253/400⟩ := by
    norm_num [resolveFetchBox, narrowBox, areaSize, abs_of_nonneg]
  have hbig : areaSize (⟨0, 0, 1, 1⟩ : BBox) > 1/10 := by
    norm_num [areaSize]
  obtain ⟨h1, h2⟩ := C9_corridor 5 ⟨0, 0, 1, 1⟩ _ h
  exact ⟨hbig, _, h, h1, (h2 hbig).1⟩

/-! ### Claim C2 -/

/-- C2 counterexample: a missing API key is classified with the generic
code Error, not a distinct ConfigError; and a transport failure carrying a
500 response is not classified at all - the handler itself crashes (the
response is falsy, status_code is None, and None >= 500 raises an uncaught
TypeError), so no ProviderError code is ever produced.  The
five-distinct-codes classification is refuted. -/
theorem C2_counterexample :
    resultCode (calculateGraphhopperRoutes false 42 (-71) 43 (-70)
      (.response [] "x" none)) = some (.str "Error") ∧
    calculateGraphhopperRoutes true 42 (-71) 43 (-70)
      (.requestError (some 500) "") = none ∧
    resultCode (calculateGraphhopperRoutes true 42 (-71) 43 (-70)
      .timeout) = some (.str "Timeout") := by
  refine ⟨?_, ?_, ?_⟩ <;> rfl

/-- C2 amended: point-snapping failures yield PointNotFound, absent
connecting paths yield NoRoute, and timeouts yield Timeout; a missing API
key and any non-request exception yield the generic code Error; but every
realizable non-timeout transport failure - an HTTPError whose attached
response has status 400 or above (falsy for requests), or a connection
failure with no response - is not classified: its handler raises an
uncaught TypeError at the comparison None >= 500, so neither a ConfigError
nor a ProviderError code (nor any code) is produced there. -/
theorem C2_classification (s1 s2 e1 e2 : ℚ) (st : Nat)
    (respMessage message : String) (snapped : Option (List (ℚ × ℚ)))
    (outcome : GHOutcome) :
    resultCode (calculateGraphhopperRoutes false s1 s2 e1 e2 outcome) =
      some (.str "Error") ∧
    resultCode (calculateGraphhopperRoutes true s1 s2 e1 e2 .timeout) =
      some (.str "Timeout") ∧
    (400 ≤ st → calculateGraphhopperRoutes true s1 s2 e1 e2
      (.requestError (some st) respMessage) = none) ∧
    calculateGraphhopperRoutes true s1 s2 e1 e2
      (.requestError none respMessage) = none ∧
    resultCode (calculateGraphhopperRoutes true s1 s2 e1 e2 .otherError) =
      some (.str "Error") ∧
    (containsSub message "Cannot find point" = true →
      resultCode (calculateGraphhopperRoutes true s1 s2 e1 e2
        (.response [] message snapped)) = some (.str "PointNotFound")) ∧
    (containsSub message "Cannot find point" = false →
      resultCode (calculateGraphhopperRoutes true s1 s2 e1 e2
        (.response [] message snapped)) = some (.str "NoRoute")) := by
  refine ⟨?_, rfl, ?_, rfl, rfl, ?_, ?_⟩
  · cases outcome <;> rfl
  · intro h
    simp [calculateGraphhopperRoutes, ghRequestErrorHandler, Nat.not_lt.mpr h]
  · intro h
    simp [calculateGraphhopperRoutes, resultCode, h, dictGet]
  · intro h
    by_cases h2 : containsSub message "Connection between locations not found" = true
    · simp [calculateGraphhopperRoutes, resultCode, h, h2, dictGet]
    · simp only [Bool.not_eq_true] at h2
      simp [calculateGraphhopperRoutes, resultCode, h, h2, dictGet]

/-- Witness for C2 at concrete inputs: a point-snapping message yields
PointNotFound, a no-connection message yields NoRoute, and a 404 transport
failure crashes. -/
theorem C2_witness :
    resultCode (calculateGraphhopperRoutes true 42 (-71) 43 (-70)
      (.response [] "Cannot find point 0" none)) =
        some (.str "PointNotFound") ∧
    resultCode (calculateGraphhopperRoutes true 42 (-71) 43 (-70)
      (.response [] "Connection between locations not found" none)) =
        some (.str "NoRoute") ∧
    calculateGraphhopperRoutes true 42 (-71) 43 (-70)
      (.requestError (some 404) "") = none :=
  ⟨(C2_classification 42 (-71) 43 (-70) 404 "" "Cannot find point 0" none
      .timeout).2.2.2.2.2.1 (by decide),
   (C2_classification 42 (-71) 43 (-70) 404 "" "Connection between locations not found"
      none .timeout).2.2.2.2.2.2 (by decide),
   (C2_classification 42 (-71) 43 (-70) 404 "" "" none .timeout).2.2.1
     (by norm_num)⟩

/-! ### Claim C3 -/

/-- A successful GraphHopper outcome used by several witnesses: one
parseable path. -/
def ghOkOutcome : GHOutcome :=
  .response
    [{ hasPoints := true, coordinates := [(0, 0), (1, 1)], distance := 100
       time_ms := 60000, weight := 1, instructionCount := 0 }] "" none

/-- C3 counterexample: with a successful primary result and a great-circle
distance above the 400 km threshold, the secondary provider is not
attempted, refuting the claimed exact trigger condition (which would demand
an attempt whenever the distance exceeds the threshold). -/
theorem C3_counterexample :
    osrmAttempted true 42 (-71) 43 (-70) 500 ghOkOutcome = false ∧
    (400 : ℚ) < 500 ∧
    resultCode (calculateGraphhopperRoutes true 42 (-71) 43 (-70) ghOkOutcome)
      = some (.str "Ok") := by
  refine ⟨?_, by norm_num, rfl⟩
  rfl

/-- C3 amended: when the primary call raises (every realizable non-timeout
transport failure crashes inside its own error handler), the exception
propagates out of the fallback function and the secondary provider is never
attempted; when the primary call returns a dictionary, the secondary is
attempted exactly when that dictionary is not Ok and in addition it is a
Timeout, a generic Error, or the great-circle distance exceeds 400 km; and
whenever the secondary is attempted and also fails, the original primary
dictionary is returned unchanged. -/
theorem C3_fallback (hasKey : Bool) (s1 s2 e1 e2 dist_km : ℚ)
    (ghOutcome : GHOutcome) (osrmOutcome : OsrmOutcome) :
    (calculateGraphhopperRoutes hasKey s1 s2 e1 e2 ghOutcome = none →
      calculateRouteWithFallback hasKey s1 s2 e1 e2 dist_km ghOutcome osrmOutcome
          = none ∧
        osrmAttempted hasKey s1 s2 e1 e2 dist_km ghOutcome = false) ∧
    (∀ gh, calculateGraphhopperRoutes hasKey s1 s2 e1 e2 ghOutcome = some gh →
      (osrmAttempted hasKey s1 s2 e1 e2 dist_km ghOutcome = true ↔
        (¬ dictGet gh "code" = some (.str "Ok") ∧
          (dictGet gh "code" = some (.str "Timeout") ∨
           dictGet gh "code" = some (.str "Error") ∨
           dist_km > 400))) ∧
      (osrmAttempted hasKey s1 s2 e1 e2 dist_km ghOutcome = true →
        ¬ dictGet (calculateOsrmRoute osrmOutcome) "code" = some (.str "Ok") →
        calculateRouteWithFallback hasKey s1 s2 e1 e2 dist_km ghOutcome
          osrmOutcome = some gh)) := by
  constructor
  · intro hnone
    rw [calculateRouteWithFallback, osrmAttempted, hnone]
    exact ⟨rfl, rfl⟩
  · intro gh hgh
    have hatt : osrmAttempted hasKey s1 s2 e1 e2 dist_km ghOutcome =
        decide (¬ dictGet gh "code" = some (.str "Ok") ∧
          (dictGet gh "code" = some (.str "Timeout") ∨
           dictGet gh "code" = some (.str "Error") ∨ dist_km > 400)) := by
      rw [osrmAttempted, hgh]
    constructor
    · rw [hatt]
      simp
    · intro hattT hosrm
      rw [hatt] at hattT
      simp only [decide_eq_true_eq] at hattT
      rw [calculateRouteWithFallback, hgh]
      simp only
      rw [if_neg hattT.1, if_pos hattT.2, if_neg hosrm]

/-- Witness for C3 at concrete inputs: a crashing transport failure
propagates with no fallback attempt, and a missing-key primary failure with
a failing secondary returns the primary error dictionary unchanged. -/
theorem C3_witness :
    (calculateRouteWithFallback true 42 (-71) 43 (-70) 10
        (.requestError (some 502) "") .timeout = none ∧
      osrmAttempted true 42 (-71) 43 (-70) 10 (.requestError (some 502) "") = false) ∧
    calculateRouteWithFallback false 42 (-71) 43 (-70) 10 ghOkOutcome .timeout =
      some [("code", PyVal.str "Error"),
        ("message", PyVal.str "Routing service configuration error: API key missing.")] := by
  constructor
  · exact (C3_fallback true 42 (-71) 43 (-70) 10 (.requestError (some 502) "")
      .timeout).1 rfl
  · have hgh : calculateGraphhopperRoutes false 42 (-71) 43 (-70) ghOkOutcome =
        some [("code", PyVal.str "Error"),
          ("message", PyVal.str "Routing service configuration error: API key missing.")] :=
      rfl
    refine ((C3_fallback false 42 (-71) 43 (-70) 10 ghOkOutcome .timeout).2 _ hgh).2
      ?_ (by decide)
    rw [(C3_fallback false 42 (-71) 43 (-70) 10 ghOkOutcome .timeout).2 _ hgh
      |>.1]
    refine ⟨by decide, Or.inr (Or.inl (by decide))⟩

/-! ### Claim C1 -/

/-- C1 (code bug): whenever the route alternative provider succeeds, the
public fastest-route operation returns the error dictionary rather than the
minimum-duration route.  The check at routing_service.py line 483 requires
the selection result to carry a code key equal to Ok and a truthy routes
key, but _select_optimized_routes only ever returns the three keys fastest,
cell_coverage and balanced, so the check fails for every input. -/
theorem C1_fastest_always_errors (fta : FTA) (fetchTowers : BBox → List ScTower)
    (hasKey : Bool) (s1 s2 e1 e2 dist_km : ℚ) (ghOutcome : GHOutcome)
    (osrmOutcome : OsrmOutcome)
    (hOk : resultCode (calculateRouteWithFallback hasKey s1 s2 e1 e2 dist_km
      ghOutcome osrmOutcome) = some (.str "Ok")) :
    getRouteFastest fta fetchTowers hasKey s1 s2 e1 e2 dist_km ghOutcome
      osrmOutcome =
      some [("code", .str "Error"), ("message", .str "Failed to optimize route.")] := by
  rw [getRouteFastest, getOptimizedRoute]
  cases hcw : calculateRouteWithFallback hasKey s1 s2 e1 e2 dist_km ghOutcome
      osrmOutcome with
  | none =>
    rw [hcw] at hOk
    simp only [resultCode] at hOk
    cases hOk
  | some resp =>
    rw [hcw] at hOk
    simp only [resultCode] at hOk
    simp only
    rw [if_neg (by simp [hOk])]
    rw [if_pos]
    exact Or.inl (by simp [dictGet_select_code])

/-- Witness for C1: a concrete successful provider response still produces
the error dictionary. -/
theorem C1_witness :
    getRouteFastest (fun _ _ => []) (fun _ => []) true 42 (-71) 43 (-70) 1
      ghOkOutcome .timeout =
      some [("code", .str "Error"), ("message", .str "Failed to optimize route.")] := by
  refine C1_fastest_always_errors (fun _ _ => []) (fun _ => []) true 42 (-71) 43
    (-70) 1 ghOkOutcome .timeout ?_
  rfl

/-! ### Claim C6 -/

lemma towerWeight_pos (t : SigTower) : 0 < towerWeight t := by
  rw [towerWeight]
  have h100 : (0 : ℚ) < max 100 t.dist := lt_of_lt_of_le (by norm_num) (le_max_left _ _)
  positivity

lemma wWeightSum_nonneg (l : List SigTower) : 0 ≤ wWeightSum l := by
  rw [wWeightSum]
  apply List.sum_nonneg
  intro x hx
  obtain ⟨t, _, rfl⟩ := List.mem_map.mp hx
  exact le_of_lt (towerWeight_pos t)

lemma wWeightSum_eq_zero_iff (l : List SigTower) :
    wWeightSum l = 0 ↔ l.filter towerInRange = [] := by
  constructor
  · intro h
    by_contra hne
    have hpos : 0 < wWeightSum l := by
      rw [wWeightSum]
      apply List.sum_pos
      · intro x hx
        obtain ⟨t, _, rfl⟩ := List.mem_map.mp hx
        exact towerWeight_pos t
      · simpa using hne
    exact absurd h (ne_of_gt hpos)
  · intro h
    rw [wWeightSum, h]
    rfl

lemma wSignalSum_of_filter_nil {l : List SigTower}
    (h : l.filter towerInRange = []) : wSignalSum l = 0 := by
  rw [wSignalSum, h]
  rfl

/-- The accumulation loop of calculate_signal_strength computes the weighted
sums over the in-range towers. -/
lemma signalFold (towers : List SigTower) (s w : ℚ) :
    towers.foldl
      (fun (acc : ℚ × ℚ) t =>
        if t.dist ≤ effRange t then
          (acc.1 + effSignal t * towerWeight t, acc.2 + towerWeight t)
        else acc)
      (s, w) = (s + wSignalSum towers, w + wWeightSum towers) := by
  induction towers generalizing s w with
  | nil => simp [wSignalSum, wWeightSum]
  | cons t ts ih =>
    by_cases h : t.dist ≤ effRange t
    · rw [List.foldl_cons, if_pos h, ih]
      have hR : towerInRange t = true := by simp [towerInRange, h]
      simp only [wSignalSum, wWeightSum, List.filter_cons, hR, if_pos, List.map_cons,
        List.sum_cons, Prod.mk.injEq]
      constructor <;> ring
    · rw [List.foldl_cons, if_neg h, ih]
      have hR : towerInRange t = false := by simp [towerInRange, h]
      simp only [wSignalSum, wWeightSum, List.filter_cons, hR]
      simp

/-- Closed-form characterization of calculate_signal_strength. -/
lemma css_spec (towers : List SigTower) :
    calculate_signal_strength towers =
      if towers.isEmpty then 0
      else if wWeightSum towers = 0 then -100
      else wSignalSum towers / wWeightSum towers := by
  rw [calculate_signal_strength]
  by_cases h : towers.isEmpty
  · simp [h]
  · rw [if_neg h, if_neg h, signalFold]
    simp

/-- C6 counterexample: on the empty tower list the function returns 0, not
the fixed very-poor value of -100 dBm. -/
theorem C6_counterexample :
    calculate_signal_strength [] = 0 ∧ (0 : ℚ) ≠ -100 := by
  exact ⟨rfl, by norm_num⟩

/-- C6 amended: the estimate is 0 for an empty tower list; -100 dBm when the
list is non-empty but no tower is within its effective range of the point;
and otherwise the weighted average, with weights the inverse squared
distances clamped below at 100 m, of the effective signal strengths of
exactly the in-range towers. -/
theorem C6_signal_strength (towers : List SigTower) :
    (towers = [] → calculate_signal_strength towers = 0) ∧
    (towers ≠ [] → towers.filter towerInRange = [] →
      calculate_signal_strength towers = -100) ∧
    (towers.filter towerInRange ≠ [] →
      calculate_signal_strength towers =
        ((towers.filter towerInRange).map (fun t => effSignal t * towerWeight t)).sum /
          ((towers.filter towerInRange).map towerWeight).sum) := by
  refine ⟨?_, ?_, ?_⟩
  · intro h; subst h; rfl
  · intro hne hfil
    rw [css_spec, if_neg (by simpa using hne),
      if_pos ((wWeightSum_eq_zero_iff towers).mpr hfil)]
  · intro hfil
    have hne : towers ≠ [] := by
      intro h; subst h; exact hfil rfl
    have hW : wWeightSum towers ≠ 0 := fun h =>
      hfil ((wWeightSum_eq_zero_iff towers).mp h)
    rw [css_spec, if_neg (by simpa using hne), if_neg hW]
    rfl

/-- Witness for C6: a single out-of-range tower gives -100; a single
in-range tower gives its own signal. -/
theorem C6_witness :
    calculate_signal_strength [⟨10000, 5000, -80⟩] = -100 ∧
    calculate_signal_strength [⟨1000, 5000, -80⟩] = -80 := by
  constructor
  · refine (C6_signal_strength [⟨10000, 5000, -80⟩]).2.1 (by simp) ?_
    simp [towerInRange, effRange]
    norm_num
  · have hR : towerInRange ⟨1000, 5000, -80⟩ = true := by
      norm_num [towerInRange, effRange]
    have hs : effSignal ⟨1000, 5000, -80⟩ = -80 := by
      norm_num [effSignal]
    have hw : towerWeight ⟨1000, 5000, -80⟩ ≠ 0 := ne_of_gt (towerWeight_pos _)
    have hfil : List.filter towerInRange [⟨1000, 5000, -80⟩] =
        [⟨1000, 5000, -80⟩] := by simp [hR]
    rw [(C6_signal_strength [⟨1000, 5000, -80⟩]).2.2 (by simp [hfil])]
    rw [hfil]
    simp only [List.map_cons, List.map_nil, List.sum_cons, List.sum_nil, add_zero, hs]
    rw [mul_div_assoc, div_self hw, mul_one]

/-! ### Claim C7 -/

lemma wSignalSum_append (l1 l2 : List SigTower) :
    wSignalSum (l1 ++ l2) = wSignalSum l1 + wSignalSum l2 := by
  simp [wSignalSum, List.filter_append]

lemma wWeightSum_append (l1 l2 : List SigTower) :
    wWeightSum (l1 ++ l2) = wWeightSum l1 + wWeightSum l2 := by
  simp [wWeightSum, List.filter_append]

lemma wSignalSum_cons (t : SigTower) (l : List SigTower) :
    wSignalSum (t :: l) =
      (if towerInRange t then effSignal t * towerWeight t else 0) + wSignalSum l := by
  by_cases h : towerInRange t <;> simp [wSignalSum, List.filter_cons, h]

lemma wWeightSum_cons (t : SigTower) (l : List SigTower) :
    wWeightSum (t :: l) =
      (if towerInRange t then towerWeight t else 0) + wWeightSum l := by
  by_cases h : towerInRange t <;> simp [wWeightSum, List.filter_cons, h]

lemma wSignalSum_middle (pre post : List SigTower) (t : SigTower) :
    wSignalSum (pre ++ t :: post) =
      wSignalSum (pre ++ post) +
        (if towerInRange t then effSignal t * towerWeight t else 0) := by
  rw [wSignalSum_append, wSignalSum_cons, wSignalSum_append]
  ring

lemma wWeightSum_middle (pre post : List SigTower) (t : SigTower) :
    wWeightSum (pre ++ t :: post) =
      wWeightSum (pre ++ post) + (if towerInRange t then towerWeight t else 0) := by
  rw [wWeightSum_append, wWeightSum_cons, wWeightSum_append]
  ring

lemma towerWeight_anti {d d' rg sg : ℚ} (hd : d ≤ d') :
    towerWeight ⟨d', rg, sg⟩ ≤ towerWeight ⟨d, rg, sg⟩ := by
  rw [towerWeight, towerWeight]
  have h1 : (0 : ℚ) < max 100 d := lt_of_lt_of_le (by norm_num) (le_max_left _ _)
  have h2 : (0 : ℚ) < (max 100 d : ℚ) ^ 2 := by positivity
  have h3 : ((max 100 d : ℚ)) ^ 2 ≤ ((max 100 d' : ℚ)) ^ 2 := by
    apply pow_le_pow_left (le_of_lt h1)
    exact max_le_max le_rfl hd
  exact one_div_le_one_div_of_le h2 h3

/-- C7 counterexample: with a strong tower fixed at 100 m and a weak tower
whose distance varies, the estimate at the closer point (weak tower at
200 m) is strictly below the estimate at the farther point (weak tower at
1000 m), refuting unconditional monotonicity. -/
theorem C7_counterexample :
    (200 : ℚ) ≤ 1000 ∧
    ¬ (calculate_signal_strength [⟨100, 5000, -60⟩, ⟨200, 5000, -110⟩] ≥
        calculate_signal_strength [⟨100, 5000, -60⟩, ⟨1000, 5000, -110⟩]) := by
  constructor
  · norm_num
  · have h1 : calculate_signal_strength [⟨100, 5000, -60⟩, ⟨200, 5000, -110⟩] =
        -70 := by
      rw [calculate_signal_strength]
      norm_num [effRange, effSignal, towerWeight]
    have h2 : calculate_signal_strength [⟨100, 5000, -60⟩, ⟨1000, 5000, -110⟩] =
        -6110 / 101 := by
      rw [calculate_signal_strength]
      norm_num [effRange, effSignal, towerWeight]
    rw [h1, h2]
    norm_num

/-- C7 amended: holding the range and signal attributes of one tower and all
other towers fixed, the estimate is monotonically non-increasing in the
distance of the point to that tower, provided the effective signal of that
tower is at least the estimate that the remaining towers alone would
determine (the weighted average of the remaining in-range towers, or -100
when none is in range); without that proviso a closer point can score
strictly lower, as the counterexample shows. -/
theorem C7_monotone (pre post : List SigTower) (rg sg d d' : ℚ) (hd : d ≤ d')
    (hbase : (if wWeightSum (pre ++ post) = 0 then (-100 : ℚ)
        else wSignalSum (pre ++ post) / wWeightSum (pre ++ post)) ≤
        effSignal ⟨d, rg, sg⟩) :
    calculate_signal_strength (pre ++ ⟨d', rg, sg⟩ :: post) ≤
      calculate_signal_strength (pre ++ ⟨d, rg, sg⟩ :: post) := by
  have hs_eq : effSignal ⟨d', rg, sg⟩ = effSignal ⟨d, rg, sg⟩ := rfl
  have hr_eq : effRange ⟨d', rg, sg⟩ = effRange ⟨d, rg, sg⟩ := rfl
  have hW0 : wWeightSum (pre ++ post) = 0 → wSignalSum (pre ++ post) = 0 := by
    intro h
    exact wSignalSum_of_filter_nil ((wWeightSum_eq_zero_iff _).mp h)
  have hWnn : 0 ≤ wWeightSum (pre ++ post) := wWeightSum_nonneg _
  have hw : 0 < towerWeight ⟨d, rg, sg⟩ := towerWeight_pos _
  have hw' : 0 < towerWeight ⟨d', rg, sg⟩ := towerWeight_pos _
  have hww : towerWeight ⟨d', rg, sg⟩ ≤ towerWeight ⟨d, rg, sg⟩ := towerWeight_anti hd
  have hSW : wSignalSum (pre ++ post) ≤
      effSignal ⟨d, rg, sg⟩ * wWeightSum (pre ++ post) := by
    rcases eq_or_lt_of_le hWnn with h0 | hpos
    · rw [← h0, mul_zero, hW0 h0.symm]
    · rw [if_neg (ne_of_gt hpos)] at hbase
      exact (div_le_iff hpos).mp hbase
  have hne : ∀ x : SigTower, (pre ++ x :: post).isEmpty = false := by
    intro x
    cases pre <;> rfl
  have hcss : ∀ x : SigTower,
      calculate_signal_strength (pre ++ x :: post) =
        if wWeightSum (pre ++ post) + (if towerInRange x then towerWeight x else 0) = 0
        then -100
        else (wSignalSum (pre ++ post) +
            (if towerInRange x then effSignal x * towerWeight x else 0)) /
          (wWeightSum (pre ++ post) + (if towerInRange x then towerWeight x else 0)) := by
    intro x
    rw [css_spec, hne x]
    simp only [Bool.false_eq_true, if_false, wWeightSum_middle, wSignalSum_middle]
  have hmono : towerInRange ⟨d', rg, sg⟩ = true → towerInRange ⟨d, rg, sg⟩ = true := by
    intro h
    simp only [towerInRange, decide_eq_true_eq] at h ⊢
    rw [hr_eq] at h
    exact le_trans hd h
  rw [hcss, hcss]
  by_cases hin' : towerInRange ⟨d', rg, sg⟩ = true
  · have hin : towerInRange ⟨d, rg, sg⟩ = true := hmono hin'
    rw [hin, hin', if_pos rfl, if_pos rfl, if_pos rfl, if_pos rfl]
    have hden : 0 < wWeightSum (pre ++ post) + towerWeight ⟨d, rg, sg⟩ :=
      add_pos_of_nonneg_of_pos hWnn hw
    have hden' : 0 < wWeightSum (pre ++ post) + towerWeight ⟨d', rg, sg⟩ :=
      add_pos_of_nonneg_of_pos hWnn hw'
    rw [if_neg (ne_of_gt hden'), if_neg (ne_of_gt hden), hs_eq]
    rw [div_le_div_iff hden' hden]
    nlinarith [mul_nonneg (sub_nonneg.mpr hSW) (sub_nonneg.mpr hww)]
  · have hin'f : towerInRange ⟨d', rg, sg⟩ = false := by
      simpa using hin'
    rw [hin'f]
    simp only [Bool.false_eq_true, if_neg (by simp : ¬ False), ite_false, add_zero]
    by_cases hin : towerInRange ⟨d, rg, sg⟩ = true
    · rw [hin, if_pos rfl, if_pos rfl]
      have hden : 0 < wWeightSum (pre ++ post) + towerWeight ⟨d, rg, sg⟩ :=
        add_pos_of_nonneg_of_pos hWnn hw
      rw [if_neg (ne_of_gt hden)]
      rcases eq_or_lt_of_le hWnn with h0 | hpos
      · rw [← h0, if_pos rfl]
        rw [hW0 h0.symm, zero_add, zero_add, mul_div_assoc,
          div_self (ne_of_gt hw), mul_one]
        rw [← h0, if_pos rfl] at hbase
        exact hbase
      · rw [if_neg (ne_of_gt hpos)]
        rw [if_neg (ne_of_gt hpos)] at hbase
        rw [div_le_div_iff hpos hden]
        have h1 : wSignalSum (pre ++ post) * towerWeight ⟨d, rg, sg⟩ ≤
            effSignal ⟨d, rg, sg⟩ * wWeightSum (pre ++ post) *
              towerWeight ⟨d, rg, sg⟩ :=
          mul_le_mul_of_nonneg_right hSW (le_of_lt hw)
        nlinarith
    · have hinf : towerInRange ⟨d, rg, sg⟩ = false := by simpa using hin
      rw [hinf]
      simp

/-- Witness for C7: a single tower of signal -80 dBm moved from 1000 m to
2000 m does not increase the estimate. -/
theorem C7_witness :
    calculate_signal_strength [⟨2000, 5000, -80⟩] ≤
      calculate_signal_strength [⟨1000, 5000, -80⟩] :=
  C7_monotone [] [] 5000 (-80) 1000 2000 (by norm_num)
    (by norm_num [wWeightSum, effSignal])

/-! ### Claim C4 -/

/-- C4: every entry of the normalized candidate list carries
normDuration = 1 - (duration - min)/range with the range floored at 1,
normSignal analogously with higher signal better, and the even-weight
balanced score (the clamps of the source are no-ops because the normalized
quotients always lie in the 0-1 interval). -/
theorem C4_normalization (fta : FTA) (alts : List Route) (tia : List ScTower)
    (e : ScoredEntry) (he : e ∈ scoreAndNormalize fta alts tia) :
    e.norm_duration = 1 -
      (e.duration - listMinQ ((routesWithScores fta tia alts 0).map (·.duration))) /
        max 1 (listMaxQ ((routesWithScores fta tia alts 0).map (·.duration)) -
          listMinQ ((routesWithScores fta tia alts 0).map (·.duration))) ∧
    e.norm_signal =
      (e.avg_signal - listMinQ ((routesWithScores fta tia alts 0).map (·.avg_signal))) /
        max 1 (listMaxQ ((routesWithScores fta tia alts 0).map (·.avg_signal)) -
          listMinQ ((routesWithScores fta tia alts 0).map (·.avg_signal))) ∧
    e.balanced_score = (1/2) * e.norm_duration + (1/2) * e.norm_signal := by
  simp only [scoreAndNormalize] at he
  obtain ⟨e0, he0, rfl⟩ := List.mem_map.mp he
  have hd1 : listMinQ ((routesWithScores fta tia alts 0).map (·.duration)) ≤
      e0.duration :=
    listMinQ_le (List.mem_map_of_mem _ he0)
  have hd2 : e0.duration ≤
      listMaxQ ((routesWithScores fta tia alts 0).map (·.duration)) :=
    le_listMaxQ (List.mem_map_of_mem _ he0)
  have hs1 : listMinQ ((routesWithScores fta tia alts 0).map (·.avg_signal)) ≤
      e0.avg_signal :=
    listMinQ_le (List.mem_map_of_mem _ he0)
  have hs2 : e0.avg_signal ≤
      listMaxQ ((routesWithScores fta tia alts 0).map (·.avg_signal)) :=
    le_listMaxQ (List.mem_map_of_mem _ he0)
  have hclamp : ∀ lo hi v : ℚ, lo ≤ v → v ≤ hi →
      max 0 (min 1 ((v - lo) / max 1 (hi - lo))) = (v - lo) / max 1 (hi - lo) := by
    intro lo hi v h1 h2
    have hrpos : (0 : ℚ) < max 1 (hi - lo) :=
      lt_of_lt_of_le zero_lt_one (le_max_left _ _)
    have hx0 : 0 ≤ (v - lo) / max 1 (hi - lo) :=
      div_nonneg (sub_nonneg.mpr h1) (le_of_lt hrpos)
    have hx1 : (v - lo) / max 1 (hi - lo) ≤ 1 := by
      rw [div_le_one hrpos]
      calc v - lo ≤ hi - lo := by linarith
        _ ≤ max 1 (hi - lo) := le_max_right _ _
    rw [min_eq_right hx1, max_eq_right hx0]
  refine ⟨?_, ?_, ?_⟩
  · simp only [normalizeEntry]
    rw [hclamp _ _ _ hd1 hd2]
  · simp only [normalizeEntry]
    rw [hclamp _ _ _ hs1 hs2]
  · simp only [normalizeEntry]
    ring

/-- The concrete route of the C4 witness. -/
def c4route : Route :=
  { coords := [], distance := 0, duration := 100, routing_provider := "graphhopper"
    stepCount := 0, towers := [] }

/-- The scored entry that the engine produces for the C4 witness route. -/
def c4entry : ScoredEntry :=
  { route := c4route, towers := [], tower_count := 0, avg_signal := -120
    duration := 100, index := 0, norm_duration := 1, norm_signal := 0
    balanced_score := 1/2 }

/-- Witness for C4 at one concrete candidate route. -/
theorem C4_witness :
    c4entry ∈ scoreAndNormalize (fun _ _ => []) [c4route] [] ∧
    (c4entry.norm_duration = 1 -
      (c4entry.duration -
        listMinQ ((routesWithScores (fun _ _ => []) [] [c4route] 0).map (·.duration))) /
        max 1 (listMaxQ ((routesWithScores (fun _ _ => []) [] [c4route] 0).map (·.duration)) -
          listMinQ ((routesWithScores (fun _ _ => []) [] [c4route] 0).map (·.duration))) ∧
    c4entry.norm_signal =
      (c4entry.avg_signal -
        listMinQ ((routesWithScores (fun _ _ => []) [] [c4route] 0).map (·.avg_signal))) /
        max 1 (listMaxQ ((routesWithScores (fun _ _ => []) [] [c4route] 0).map (·.avg_signal)) -
          listMinQ ((routesWithScores (fun _ _ => []) [] [c4route] 0).map (·.avg_signal))) ∧
    c4entry.balanced_score = (1/2) * c4entry.norm_duration + (1/2) * c4entry.norm_signal) := by
  have hm : c4entry ∈ scoreAndNormalize (fun _ _ => []) [c4route] [] := by
    have : scoreAndNormalize (fun _ _ => []) [c4route] [] = [c4entry] := by
      norm_num [scoreAndNormalize, routesWithScores, normalizeEntry, listMinQ,
        listMaxQ, c4route, c4entry]
    rw [this]
    exact List.mem_singleton.mpr rfl
  exact ⟨hm, C4_normalization (fun _ _ => []) [c4route] [] c4entry hm⟩

/-! ### Claim C5 -/

lemma routesWithScores_length (fta : FTA) (tia : List ScTower) :
    ∀ (l : List Route) (i : Nat), (routesWithScores fta tia l i).length = l.length := by
  intro l
  induction l with
  | nil => intro i; rfl
  | cons r rest ih =>
    intro i
    rw [routesWithScores]
    simp [ih]

lemma scoreAndNormalize_length (fta : FTA) (alts : List Route) (tia : List ScTower) :
    (scoreAndNormalize fta alts tia).length = alts.length := by
  simp [scoreAndNormalize, routesWithScores_length]

lemma rws_index_mem (fta : FTA) (tia : List ScTower) :
    ∀ (l : List Route) (i k : Nat),
      (∃ e ∈ routesWithScores fta tia l i, e.index = k) ↔ i ≤ k ∧ k < i + l.length := by
  intro l
  induction l with
  | nil =>
    intro i k
    simp [routesWithScores]
  | cons r rest ih =>
    intro i k
    rw [routesWithScores]
    simp only [List.mem_cons, List.length_cons]
    constructor
    · rintro ⟨e, he | he, rfl⟩
      · subst he
        simp only []
        omega
      · have := (ih (i + 1) e.index).mp ⟨e, he, rfl⟩
        omega
    · rintro ⟨h1, h2⟩
      by_cases hk : k = i
      · subst hk
        exact ⟨_, Or.inl rfl, rfl⟩
      · obtain ⟨e, he, hke⟩ := (ih (i + 1) k).mpr ⟨by omega, by omega⟩
        exact ⟨e, Or.inr he, hke⟩

lemma scoreAndNormalize_index_mem (fta : FTA) (alts : List Route)
    (tia : List ScTower) (k : Nat) :
    (∃ e ∈ scoreAndNormalize fta alts tia, e.index = k) ↔ k < alts.length := by
  simp only [scoreAndNormalize]
  constructor
  · rintro ⟨e, he, rfl⟩
    obtain ⟨e0, he0, rfl⟩ := List.mem_map.mp he
    show e0.index < alts.length
    have := (rws_index_mem fta tia alts 0 e0.index).mp ⟨e0, he0, rfl⟩
    omega
  · intro hk
    obtain ⟨e0, he0, hk0⟩ := (rws_index_mem fta tia alts 0 k).mpr ⟨Nat.zero_le k, by omega⟩
    exact ⟨normalizeEntry _ _ _ _ e0, List.mem_map_of_mem _ he0, hk0⟩

lemma pickDiverse_spec (sorted : List ScoredEntry) (sel : List Nat)
    (hne : sorted ≠ []) :
    ∃ e, pickDiverse sorted sel = some e ∧ e ∈ sorted ∧
      (e.index ∈ sel → ∀ x ∈ sorted, x.index ∈ sel) := by
  cases sorted with
  | nil => exact absurd rfl hne
  | cons c0 tl =>
    rw [pickDiverse]
    by_cases h0 : c0.index ∈ sel
    · rw [if_pos h0]
      cases hf : tl.find? (fun e => decide (e.index ∉ sel)) with
      | some alt =>
        refine ⟨alt, rfl, List.mem_cons_of_mem _ (List.mem_of_find?_eq_some hf), ?_⟩
        intro habs
        have := List.find?_some hf
        simp only [decide_eq_true_eq] at this
        exact absurd habs this
      | none =>
        refine ⟨c0, rfl, List.mem_cons_self _ _, ?_⟩
        intro _ x hx
        rcases List.mem_cons.mp hx with rfl | hx2
        · exact h0
        · have := List.find?_eq_none.mp hf x hx2
          simpa using this
    · rw [if_neg h0]
      exact ⟨c0, rfl, List.mem_cons_self _ _, fun habs => absurd habs h0⟩

/-- C5: the selection resolves fastest first, then cell coverage, then
balanced; a duplicate pick is kept only when every candidate index is
already selected, so with at least two candidates the cell-coverage pick
differs from the fastest pick, with at least three candidates the balanced
pick differs from both, and in particular the three picks never all resolve
to the same candidate index when three or more candidates exist. -/
theorem C5_diversity (fta : FTA) (alts : List Route) (tia : List ScTower)
    (hne : alts ≠ []) :
    ∃ fe ce be,
      selectionTriple fta alts tia = (some fe, some ce, some be) ∧
      (ce.index = fe.index → alts.length = 1) ∧
      (be.index = fe.index ∨ be.index = ce.index → alts.length ≤ 2) ∧
      (3 ≤ alts.length → ¬ (fe.index = ce.index ∧ ce.index = be.index)) := by
  have hn : 0 < alts.length := List.length_pos.mpr hne
  have hlen : (scoreAndNormalize fta alts tia).length = alts.length :=
    scoreAndNormalize_length fta alts tia
  have hDlen : (List.insertionSort durLE (scoreAndNormalize fta alts tia)).length =
      alts.length := by
    rw [(List.perm_insertionSort durLE _).length_eq, hlen]
  have hSlen : (List.insertionSort sigLE (scoreAndNormalize fta alts tia)).length =
      alts.length := by
    rw [(List.perm_insertionSort sigLE _).length_eq, hlen]
  have hBlen : (List.insertionSort balLE (scoreAndNormalize fta alts tia)).length =
      alts.length := by
    rw [(List.perm_insertionSort balLE _).length_eq, hlen]
  obtain ⟨f, tlD, hD⟩ :=
    List.exists_cons_of_ne_nil (List.length_pos.mp (hDlen ▸ hn))
  obtain ⟨ce, hce, hceMem, hceProp⟩ :=
    pickDiverse_spec (List.insertionSort sigLE (scoreAndNormalize fta alts tia))
      [f.index] (List.length_pos.mp (hSlen ▸ hn))
  obtain ⟨be, hbe, hbeMem, hbeProp⟩ :=
    pickDiverse_spec (List.insertionSort balLE (scoreAndNormalize fta alts tia))
      [f.index, ce.index] (List.length_pos.mp (hBlen ▸ hn))
  have hAll : ∀ (r : ScoredEntry → ScoredEntry → Prop) [DecidableRel r]
      (sel : List Nat),
      (∀ x ∈ List.insertionSort r (scoreAndNormalize fta alts tia), x.index ∈ sel) →
      ∀ k, k < alts.length → k ∈ sel := by
    intro r _ sel hall k hk
    obtain ⟨e, he, hke⟩ := (scoreAndNormalize_index_mem fta alts tia k).mpr hk
    have he2 : e ∈ List.insertionSort r (scoreAndNormalize fta alts tia) :=
      (List.perm_insertionSort r _).mem_iff.mpr he
    exact hke ▸ hall e he2
  have hsel : selectionTriple fta alts tia = (some f, some ce, some be) := by
    rw [selectionTriple]
    simp only [hD, List.head?_cons]
    rw [hce]
    simp only [List.singleton_append]
    rw [hbe]
  have ha : ce.index = f.index → alts.length = 1 := by
    intro hdup
    have h1 : ce.index ∈ [f.index] := by simp [hdup]
    have hall := hAll sigLE [f.index] (hceProp h1)
    by_contra hne1
    have h2 : 2 ≤ alts.length := by omega
    have h0' := hall 0 (by omega)
    have h1' := hall 1 (by omega)
    simp only [List.mem_singleton] at h0' h1'
    omega
  have hb : be.index = f.index ∨ be.index = ce.index → alts.length ≤ 2 := by
    intro hdup
    have h1 : be.index ∈ [f.index, ce.index] := by
      rcases hdup with h | h <;> simp [h]
    have hall := hAll balLE [f.index, ce.index] (hbeProp h1)
    by_contra hgt
    have h3 : 3 ≤ alts.length := by omega
    have h0' := hall 0 (by omega)
    have h1' := hall 1 (by omega)
    have h2' := hall 2 (by omega)
    simp only [List.mem_cons, List.mem_singleton, List.not_mem_nil, or_false] at h0' h1' h2'
    omega
  refine ⟨f, ce, be, hsel, ha, hb, ?_⟩
  intro h3 ⟨hfc, _⟩
  have := ha hfc.symm
  omega

/-- The candidate list of the C5 witness: three routes of durations 100,
200 and 300 seconds. -/
def c5routes : List Route :=
  [{ coords := [], distance := 0, duration := 100,
     routing_provider := "graphhopper", stepCount := 0, towers := [] },
   { coords := [], distance := 0, duration := 200,
     routing_provider := "graphhopper", stepCount := 0, towers := [] },
   { coords := [], distance := 0, duration := 300,
     routing_provider := "graphhopper", stepCount := 0, towers := [] }]

/-- Witness for C5 at three concrete candidate routes. -/
theorem C5_witness :
    ∃ fe ce be,
      selectionTriple (fun _ _ => []) c5routes [] = (some fe, some ce, some be) ∧
      (ce.index = fe.index → c5routes.length = 1) ∧
      (be.index = fe.index ∨ be.index = ce.index → c5routes.length ≤ 2) ∧
      (3 ≤ c5routes.length → ¬ (fe.index = ce.index ∧ ce.index = be.index)) :=
  C5_diversity (fun _ _ => []) c5routes [] (by simp [c5routes])

/-! ### Claim C8 -/

lemma relaxationWeight_zero (distance signal : ℚ) :
    relaxationWeight 0 distance signal = distance := by
  rw [relaxationWeight, if_neg (lt_irrefl 0)]

lemma relaxNeighbors_zero (g : RoadGraph) (node_signals : Nat → ℚ)
    (current_node : Nat) (visited : List Nat) (st : DijkState) :
    relaxNeighbors g node_signals 0 current_node visited st =
      relaxNeighborsPlain g current_node visited st := by
  rw [relaxNeighbors, relaxNeighborsPlain]
  congr 1

lemma dijkstraLoop_zero (g : RoadGraph) (node_signals : Nat → ℚ) (end_node : Nat) :
    ∀ (fuel : Nat) (st : DijkState),
      dijkstraLoop g node_signals 0 end_node fuel st =
        dijkstraLoopPlain g end_node fuel st := by
  intro fuel
  induction fuel with
  | zero => intro st; rfl
  | succ n ih =>
    intro st
    rw [dijkstraLoop, dijkstraLoopPlain]
    cases pqMin st.pq with
    | none => rfl
    | some entry =>
      simp only
      by_cases hv : st.visited.contains entry.2
      · rw [if_pos hv, if_pos hv, ih]
      · rw [if_neg hv, if_neg hv]
        by_cases he : entry.2 = end_node
        · rw [if_pos he, if_pos he]
        · rw [if_neg he, if_neg he, relaxNeighbors_zero, ih]

/-- C8: with signal weight 0 the relaxation weight of every edge is its
length, and the signal-aware pathfinder produces exactly the same path as
the plain shortest-path search over edge lengths (for every graph, every
tower configuration, every per-node signal assignment and every fuel
bound). -/
theorem C8_zero_weight_plain (g : RoadGraph) (start_node end_node : Nat)
    (towers : List SigTower) (signalAt : Nat → ℚ) (fuel : Nat) :
    (∀ distance signal : ℚ, relaxationWeight 0 distance signal = distance) ∧
    (dijkstraWithSignal g start_node end_node towers signalAt 0 fuel).map
        Prod.fst =
      dijkstraPlain g start_node end_node fuel := by
  refine ⟨relaxationWeight_zero, ?_⟩
  rw [dijkstraWithSignal, dijkstraPlain]
  have hsw : (if towers.isEmpty then (0 : ℚ) else 0) = 0 := ite_self 0
  rw [hsw]
  have hns : (if (0 : ℚ) > 0 ∧ ¬ towers.isEmpty then some signalAt else none) =
      none := by
    rw [if_neg]
    rintro ⟨h, _⟩
    exact lt_irrefl 0 h
  rw [hns]
  rw [dijkstraLoop_zero]
  cases dijkstraLoopPlain g end_node fuel
    { dist := fun n => if n = start_node then (0 : WithTop ℚ) else ⊤
      prev := fun _ => none
      visited := []
      pq := [((0 : WithTop ℚ), start_node)] } with
  | none => rfl
  | some stF => rfl

end CellWay
